import Mathlib

/-!
Shallow embedding of the mediasoup example client (`src/py_client/user.py`).

The client drives a mediasoup-style SFU server through its signaling
handshake over a socket.io channel.  Its observable behaviour is the
sequence of channel operations (connect, `call`, `emit`) and file writes it
performs, together with the per-`User` state it mutates
(`session_id`, `router_rtp_capabilities`, `device`, `producer_transport`).

External inputs (server responses, the WebRTC engine's event firing, the
media track ending) are collected in an `Env` record; `async_task` is then a
pure function from `Env` to an outcome, a final `UserState` and the trace of
channel operations, mirroring the source line by line.
-/

namespace MediasoupClient

/-- A JSON-ish payload value appearing in a signaling message: strings,
booleans, raw byte buffers, or opaque structured data (RTP capabilities,
DTLS/RTP parameter dictionaries) that the client only passes through. -/
inductive Value where
  | vStr : String → Value
  | vBool : Bool → Value
  | vBytes : List Nat → Value
  | vOpaque : Nat → Value
  deriving DecidableEq, Repr

/-- A signaling payload: an ordered dictionary of named fields. -/
abbrev Payload := List (String × Value)

/-- Python dictionary lookup `d[k]` (returning `none` where Python raises
`KeyError`). -/
def dictLookup (k : String) : Payload → Option Value
  | [] => none
  | (k2, v) :: rest => if k2 = k then some v else dictLookup k rest

/-- One observable action of the client: establishing the socket connection,
a request/response `call` (with the event name, the request payload, and
whether the call resolved successfully), a fire-and-forget `emit`, or a
write of raw bytes to an output image file. -/
inductive Ev where
  | connect : String → Ev
  | call : String → Payload → Bool → Ev
  | emit : String → Payload → Ev
  | fileWrite : String → List Nat → Ev
  deriving DecidableEq, Repr

/-- Failure of a request/response call: a timeout or a server-reported
error (`CallError` in the spec's taxonomy). -/
inductive CallErr where
  | timeout
  | serverError
  deriving DecidableEq, Repr

/-- Errors the client task can terminate with. -/
inductive Err where
  | connectError
  | callError : String → Err
  | unsupportedMedia
  | keyError : String → Err
  | typeError
  deriving DecidableEq, Repr

/-- Result of running the client task to completion: normal return, a raised
error, or blocking forever on an event that never fires. -/
inductive Outcome where
  | ok
  | err : Err → Outcome
  | hung
  deriving DecidableEq, Repr

/-- The `getRouterRtpCapabilities` response:
`{sessionId, routerRtpCapabilities}` (the capabilities are opaque to the
client, which hands them to `Device.load`). -/
structure CapsResp where
  sessionId : String
  routerRtpCapabilities : Nat
  deriving DecidableEq, Repr

/-- The local producer object returned by `transport.produce`, valid only
once it carries the server-assigned id from the `transport-produce`
response. -/
structure Producer where
  id : String
  deriving DecidableEq, Repr

/-- All external inputs of one client session: whether the socket connect
succeeds, whether the server pushes `connection-success`, each call's
response, whether device loading finds a common codec, how many times the
WebRTC engine fires the transport's `connect` event, the engine's produce
request data, and whether the media track ends. -/
structure Env where
  connectOk : Bool
  connectionSuccess : Bool
  capsResponse : Except CallErr CapsResp
  deviceLoadOk : Bool
  transportResponse : Except CallErr Nat
  connectFires : Nat
  dtlsParameters : Nat
  produceKind : String
  produceRtpParameters : Nat
  produceResponse : Except CallErr String
  trackEnds : Bool
  stopResponse : Except CallErr Payload
  deriving Repr

/-- The mutable per-`User` state of `User.__init__`, plus a ghost counter of
how many times `self.session_id` is assigned after construction. -/
structure UserState where
  session_id : Option String
  session_id_writes : Nat
  router_rtp_capabilities : Option Nat
  device_loaded : Bool
  producer_transport : Option Nat
  local_producer : Option Producer
  deriving DecidableEq, Repr

/-- Embeds `User.__init__`: every field starts unset. -/
def initUserState : UserState :=
  { session_id := none
    session_id_writes := 0
    router_rtp_capabilities := none
    device_loaded := false
    producer_transport := none
    local_producer := none }

/-- Embeds `User.get_router_rtp_capabilities`: `sio.call("getRouterRtpCapabilities")`
with no data argument (an empty request payload); on success the response
carries `sessionId` and `routerRtpCapabilities` (the `self.session_id`
assignment is performed by the caller `async_task`, which threads the
state). -/
def get_router_rtp_capabilities (env : Env) :
    Except Err CapsResp × List Ev :=
  match env.capsResponse with
  | .ok m => (.ok m, [.call "getRouterRtpCapabilities" [] true])
  | .error _ =>
      (.error (.callError "getRouterRtpCapabilities"),
       [.call "getRouterRtpCapabilities" [] false])

/-- Embeds `User.create_device`: builds the local `Device` and loads the router
capabilities into it; performs no channel operation.  Loading fails with
`UnsupportedMediaError` when no common codec exists. -/
def create_device (env : Env) : Except Err Unit × List Ev :=
  if env.deviceLoadOk then (.ok (), []) else (.error .unsupportedMedia, [])

/-- Embeds `User.create_send_transport`, the channel part:
`sio.call("createTransport", {"sender": True, "sessionId": self.session_id})`,
then the local send transport is constructed from `params["params"]`
(opaque here). -/
def create_send_transport (env : Env) (sid : String) :
    Except Err Nat × List Ev :=
  match env.transportResponse with
  | .ok params =>
      (.ok params,
       [.call "createTransport"
          [("sender", .vBool true), ("sessionId", .vStr sid)] true])
  | .error _ =>
      (.error (.callError "createTransport"),
       [.call "createTransport"
          [("sender", .vBool true), ("sessionId", .vStr sid)] false])

/-- The `on_connect` handler registered via `transport.on("connect")`: on
each firing of the engine's `connect` event it emits
`connectProducerTransport` with the DTLS parameters and the session id.
The handler body has no guard, so it produces one emission per firing. -/
def on_connect (sid : String) (dtls : Nat) : Ev :=
  .emit "connectProducerTransport"
    [("dtlsParameters", .vOpaque dtls), ("sessionId", .vStr sid)]

/-- The engine dispatches the registered `on_connect` handler once per
firing of the transport's `connect` event. -/
def connect_event_dispatch (fires : Nat) (sid : String) (dtls : Nat) :
    List Ev :=
  List.replicate fires (on_connect sid dtls)

/-- The `on_produce` handler registered via `transport.on("produce")`: calls
`transport-produce` with `{kind, rtpParameters, sessionId}` and returns the
server-assigned id `res["id"]`; if the call fails the handler raises and
no id is returned. -/
def on_produce (env : Env) (sid : String) : Except Err String × List Ev :=
  match env.produceResponse with
  | .ok pid =>
      (.ok pid,
       [.call "transport-produce"
          [("kind", .vStr env.produceKind),
           ("rtpParameters", .vOpaque env.produceRtpParameters),
           ("sessionId", .vStr sid)] true])
  | .error _ =>
      (.error (.callError "transport-produce"),
       [.call "transport-produce"
          [("kind", .vStr env.produceKind),
           ("rtpParameters", .vOpaque env.produceRtpParameters),
           ("sessionId", .vStr sid)] false])

/-- Modelled from the spec: the behaviour of the external engine's
`Transport.produce` (pymediasoup, not part of this repository).  Per the
spec's Transport Lifecycle Manager and Producer Registrar sections, the
engine fires the transport's `connect` event (dispatching the registered
`on_connect` handler once per firing) and then raises the `produce` request,
answered by the registered `on_produce` handler; the produce call resolves
with the server-assigned id or fails when the handler fails. -/
def transport_produce (env : Env) (sid : String) :
    Except Err String × List Ev :=
  let ctr := connect_event_dispatch env.connectFires sid env.dtlsParameters
  match on_produce env sid with
  | (.ok pid, tr) => (.ok pid, ctr ++ tr)
  | (.error e, tr) => (.error e, ctr ++ tr)

/-- Embeds `User.connect_send_transport`:
`local_producer = await self.producer_transport.produce(self.track)`; a
producer object exists only when `produce` resolved with the
server-assigned id (the `trackended` / `transportclose` handlers it then
registers are modelled by `Env.trackEnds`). -/
def connect_send_transport (env : Env) (sid : String) :
    Except Err Producer × List Ev :=
  match transport_produce env sid with
  | (.ok pid, tr) => (.ok { id := pid }, tr)
  | (.error e, tr) => (.error e, tr)

/-- Embeds `User.start_record`: `sio.emit("start-record", {"sessionId": sid})`. -/
def start_record (sid : String) : List Ev :=
  [.emit "start-record" [("sessionId", .vStr sid)]]

/-- Embeds `User.stop_record`: `sio.call("stop-record", {"sessionId": sid})`,
returning the raw response dictionary. -/
def stop_record (env : Env) (sid : String) :
    Except Err Payload × List Ev :=
  match env.stopResponse with
  | .ok r => (.ok r, [.call "stop-record" [("sessionId", .vStr sid)] true])
  | .error _ =>
      (.error (.callError "stop-record"),
       [.call "stop-record" [("sessionId", .vStr sid)] false])

/-- The two `with open(...) as f: f.write(result[...])` blocks of
`async_task`: write `result["firstImage"]` to the first-image file, then
`result["lastImage"]` to the last-image file; a missing key raises
`KeyError` at that point and a non-bytes value raises `TypeError`, leaving
any write already performed in place. -/
def write_images (result : Payload) : Except Err Unit × List Ev :=
  match dictLookup "firstImage" result with
  | none => (.error (.keyError "firstImage"), [])
  | some (.vBytes b1) =>
      match dictLookup "lastImage" result with
      | none => (.error (.keyError "lastImage"), [.fileWrite "first_image" b1])
      | some (.vBytes b2) =>
          (.ok (), [.fileWrite "first_image" b1, .fileWrite "last_image" b2])
      | some _ => (.error .typeError, [.fileWrite "first_image" b1])
  | some _ => (.error .typeError, [])

/-- Lines 48-57 of `User.async_task`: emit `start-record`, wait for the
track to end (blocking forever if it never does), call `stop-record`, and
persist both images. -/
def task_record (env : Env) (sid : String) (s4 : UserState) :
    Outcome × UserState × List Ev :=
  if env.trackEnds = false then (.hung, s4, start_record sid)
  else
    match stop_record env sid with
    | (.error e, trs) => (.err e, s4, start_record sid ++ trs)
    | (.ok result, trs) =>
      match write_images result with
      | (.error e, trw) => (.err e, s4, start_record sid ++ trs ++ trw)
      | (.ok _, trw) => (.ok, s4, start_record sid ++ trs ++ trw)

/-- Lines 46-57 of `User.async_task`: produce on the created transport
(`connect_send_transport`), then the recording phase. -/
def task_produce (env : Env) (sid : String) (s3 : UserState) :
    Outcome × UserState × List Ev :=
  match connect_send_transport env sid with
  | (.error e, trp) => (.err e, s3, trp)
  | (.ok prod, trp) =>
    let s4 := { s3 with local_producer := some prod }
    let rest := task_record env sid s4
    (rest.1, rest.2.1, trp ++ rest.2.2)

/-- Lines 44-57 of `User.async_task`: create the send transport (assigning
`self.producer_transport`), then produce and record. -/
def task_transport (env : Env) (sid : String) (s2 : UserState) :
    Outcome × UserState × List Ev :=
  match create_send_transport env sid with
  | (.error e, trt) => (.err e, s2, trt)
  | (.ok params, trt) =>
    let s3 := { s2 with producer_transport := some params }
    let rest := task_produce env sid s3
    (rest.1, rest.2.1, trt ++ rest.2.2)

/-- Lines 42-57 of `User.async_task`: build and load the device, then
create the transport, produce, and record. -/
def task_device (env : Env) (sid : String) (s1 : UserState) :
    Outcome × UserState × List Ev :=
  match create_device env with
  | (.error e, trd) => (.err e, s1, trd)
  | (.ok _, trd) =>
    let s2 := { s1 with device_loaded := true }
    let rest := task_transport env sid s2
    (rest.1, rest.2.1, trd ++ rest.2.2)

/-- Lines 39-57 of `User.async_task`: wait for `connection-success`
(blocking forever if the server never pushes it), fetch the router
capabilities (assigning `self.session_id` from the response), then run the
rest of the pipeline. -/
def task_session (env : Env) : Outcome × UserState × List Ev :=
  if env.connectionSuccess = false then (.hung, initUserState, [])
  else
    match get_router_rtp_capabilities env with
    | (.error e, tr) => (.err e, initUserState, tr)
    | (.ok m, tr) =>
      let s1 : UserState :=
        { initUserState with
          session_id := some m.sessionId
          session_id_writes := initUserState.session_id_writes + 1
          router_rtp_capabilities := some m.routerRtpCapabilities }
      let rest := task_device env m.sessionId s1
      (rest.1, rest.2.1, tr ++ rest.2.2)

/-- Embeds `User.async_task` (lines 32-61): the whole session pipeline, strictly
sequential — connect, wait for `connection-success`, fetch router
capabilities, load the device, create the send transport, produce, emit
`start-record`, wait for the track to end, call `stop-record`, and persist
the two images.  Each failing step terminates the task with its error; an
event that never fires leaves the task blocked (`Outcome.hung`). -/
def async_task (env : Env) : Outcome × UserState × List Ev :=
  if env.connectOk = false then (.err .connectError, initUserState, [])
  else
    let rest := task_session env
    (rest.1, rest.2.1, .connect "http://localhost:4000" :: rest.2.2)

/-- Is this event a `call` of the given signaling event name? -/
def isCall (n : String) : Ev → Bool
  | .call m _ _ => decide (m = n)
  | _ => false

/-- Is this event a successfully resolved `call` of the given name? -/
def isCallOk (n : String) : Ev → Bool
  | .call m _ ok => ok && decide (m = n)
  | _ => false

/-- Is this event an `emit` of the given signaling event name? -/
def isEmit (n : String) : Ev → Bool
  | .emit m _ => decide (m = n)
  | _ => false

/-- Is this event a file write? -/
def isFileWrite : Ev → Bool
  | .fileWrite _ _ => true
  | _ => false

/-- Temporal ordering check on a trace: `noSecondUntilFirst p q tr` holds
when no `q`-event occurs strictly before the first `p`-event — i.e. every
`q`-event is preceded by some `p`-event. -/
def noSecondUntilFirst (p q : Ev → Bool) : List Ev → Bool
  | [] => true
  | e :: es => if p e then true else !q e && noSecondUntilFirst p q es

/-- The `sessionId` field carried by a signaling message, if any. -/
def sessionField : Ev → Option Value
  | .call _ pl _ => dictLookup "sessionId" pl
  | .emit _ pl => dictLookup "sessionId" pl
  | _ => none

/-- The spec's external-interface table (section 6), written from the
spec's words: each client-sent signaling message with its required mode
(call vs emit) and request payload fields.  `getRouterRtpCapabilities` is a
call with empty payload, `createTransport` a call with
`{sender: true, sessionId}`, `transport-produce` a call with
`{kind, rtpParameters, sessionId}`, `connectProducerTransport` an emit with
`{dtlsParameters, sessionId}`, `start-record` an emit with `{sessionId}`,
and `stop-record` a call with `{sessionId}`.  Connection establishment and
local file writes are not signaling messages and are ignored. -/
def spec_message_table : Ev → Bool
  | .connect _ => true
  | .fileWrite _ _ => true
  | .call "getRouterRtpCapabilities" [] _ => true
  | .call "createTransport"
      [("sender", .vBool true), ("sessionId", .vStr _)] _ => true
  | .call "transport-produce"
      [("kind", .vStr _), ("rtpParameters", .vOpaque _),
       ("sessionId", .vStr _)] _ => true
  | .call "stop-record" [("sessionId", .vStr _)] _ => true
  | .emit "connectProducerTransport"
      [("dtlsParameters", .vOpaque _), ("sessionId", .vStr _)] => true
  | .emit "start-record" [("sessionId", .vStr _)] => true
  | _ => false

/-- A well-formed `stop-record` response carrying both images. -/
def sampleStopResponse : Payload :=
  [("firstImage", .vBytes [10, 11]), ("lastImage", .vBytes [12, 13])]

/-- A fully successful environment: every call resolves, the engine fires
`connect` exactly once, and the track ends. -/
def envAllOk : Env :=
  { connectOk := true
    connectionSuccess := true
    capsResponse := .ok { sessionId := "abc", routerRtpCapabilities := 5 }
    deviceLoadOk := true
    transportResponse := .ok 7
    connectFires := 1
    dtlsParameters := 3
    produceKind := "video"
    produceRtpParameters := 4
    produceResponse := .ok "producer-1"
    trackEnds := true
    stopResponse := .ok sampleStopResponse }

lemma write_images_trace_writes (r : Payload) :
    ∀ e ∈ (write_images r).2, isFileWrite e = true := by
  cases h1 : dictLookup "firstImage" r with
  | none => simp [write_images, h1]
  | some v1 =>
    cases v1 with
    | vBytes b1 =>
      cases h2 : dictLookup "lastImage" r with
      | none => simp [write_images, h1, h2, isFileWrite]
      | some v2 =>
        cases v2 <;> simp [write_images, h1, h2, isFileWrite]
    | vStr s => simp [write_images, h1]
    | vBool b => simp [write_images, h1]
    | vOpaque n => simp [write_images, h1]

lemma countP_isEmit_write_images (r : Payload) (n : String) :
    ((write_images r).2).countP (isEmit n) = 0 := by
  rw [List.countP_eq_zero]
  intro e he
  have hw := write_images_trace_writes r e he
  cases e <;> simp_all [isEmit, isFileWrite]

lemma countP_replicate_eq {α : Type} (p : α → Bool) (n : Nat) (a : α) :
    (List.replicate n a).countP p = if p a then n else 0 := by
  induction n with
  | zero => simp
  | succ k ih =>
    rw [List.replicate_succ, List.countP_cons, ih]
    cases h : p a <;> simp [h, Nat.add_comm]

lemma noSecondUntilFirst_append_skip (p q : Ev → Bool) (l1 l2 : List Ev)
    (h : ∀ e ∈ l1, p e = false ∧ q e = false) :
    noSecondUntilFirst p q (l1 ++ l2) = noSecondUntilFirst p q l2 := by
  induction l1 with
  | nil => rfl
  | cons a l ih =>
    have ha := h a (List.mem_cons_self a l)
    simp only [List.cons_append, noSecondUntilFirst, ha.1, ha.2,
      Bool.not_false, Bool.true_and, if_false]
    exact ih fun e he => h e (List.mem_cons_of_mem a he)

lemma noSecondUntilFirst_no_q (p q : Ev → Bool) (l : List Ev)
    (h : ∀ e ∈ l, q e = false) : noSecondUntilFirst p q l = true := by
  induction l with
  | nil => rfl
  | cons a l ih =>
    have ha := h a (List.mem_cons_self a l)
    cases hp : p a <;>
      simp [noSecondUntilFirst, hp, ha,
        ih fun e he => h e (List.mem_cons_of_mem a he)]

/-- C4: for every session, the `createTransport` call is never issued
before the `getRouterRtpCapabilities` call has resolved successfully: in
every trace of `async_task`, no `createTransport` call occurs before the
first successfully resolved `getRouterRtpCapabilities` call. -/
theorem c4_no_createTransport_before_capabilities (env : Env) :
    noSecondUntilFirst (isCallOk "getRouterRtpCapabilities")
      (isCall "createTransport") (async_task env).2.2 = true := by
  by_cases hco : env.connectOk = false
  · simp [async_task, hco, noSecondUntilFirst]
  · by_cases hcs : env.connectionSuccess = false
    · simp [async_task, task_session, hco, hcs, noSecondUntilFirst,
        isCallOk, isCall]
    · cases hcaps : env.capsResponse with
      | error e =>
        simp [async_task, task_session, get_router_rtp_capabilities,
          hco, hcs, hcaps, noSecondUntilFirst, isCallOk, isCall]
      | ok m =>
        simp [async_task, task_session, get_router_rtp_capabilities,
          hco, hcs, hcaps, noSecondUntilFirst, isCallOk, isCall]

/-- C1 (amended): the client emits `connectProducerTransport` exactly once
per firing of the engine's `connect` event — with `n` firings the trace
carries `n` emissions, so it is emitted exactly once only when the engine
fires exactly once; the handler performs no deduplication. -/
theorem c1_connect_emission_count (env : Env) (m : CapsResp) (tp : Nat)
    (h1 : env.connectOk = true) (h2 : env.connectionSuccess = true)
    (h3 : env.capsResponse = .ok m) (h4 : env.deviceLoadOk = true)
    (h5 : env.transportResponse = .ok tp) :
    ((async_task env).2.2).countP (isEmit "connectProducerTransport")
      = env.connectFires := by
  cases hp : env.produceResponse with
  | error e =>
    simp [async_task, h1, task_session, h2, get_router_rtp_capabilities,
      h3, task_device, create_device, h4, task_transport,
      create_send_transport, h5, task_produce, connect_send_transport,
      transport_produce, on_produce, hp, connect_event_dispatch, on_connect,
      List.countP_append, List.countP_cons, countP_replicate_eq, isEmit]
  | ok pid =>
    by_cases ht : env.trackEnds = false
    · simp [async_task, h1, task_session, h2, get_router_rtp_capabilities,
        h3, task_device, create_device, h4, task_transport,
        create_send_transport, h5, task_produce, connect_send_transport,
        transport_produce, on_produce, hp, connect_event_dispatch,
        on_connect, task_record, ht, start_record,
        List.countP_append, List.countP_cons, countP_replicate_eq, isEmit]
    · cases hs : env.stopResponse with
      | error e =>
        simp [async_task, h1, task_session, h2, get_router_rtp_capabilities,
          h3, task_device, create_device, h4, task_transport,
          create_send_transport, h5, task_produce, connect_send_transport,
          transport_produce, on_produce, hp, connect_event_dispatch,
          on_connect, task_record, ht, start_record, stop_record, hs,
          List.countP_append, List.countP_cons, countP_replicate_eq, isEmit]
      | ok r =>
        have htrw :
            ((write_images r).2).countP (isEmit "connectProducerTransport")
              = 0 := countP_isEmit_write_images r _
        rcases hw : write_images r with ⟨res, trw⟩
        rw [hw] at htrw
        cases res <;>
          simp [async_task, h1, task_session, h2,
            get_router_rtp_capabilities, h3, task_device, create_device, h4,
            task_transport, create_send_transport, h5, task_produce,
            connect_send_transport, transport_produce, on_produce, hp,
            connect_event_dispatch, on_connect, task_record, ht,
            start_record, stop_record, hs, hw, htrw,
            List.countP_append, List.countP_cons, countP_replicate_eq,
            isEmit]

/-- C1 (witness for the amended theorem): in the fully successful
environment where the engine fires `connect` exactly once, exactly one
`connectProducerTransport` emission occurs. -/
theorem c1_connect_emission_count_witness :
    ((async_task envAllOk).2.2).countP (isEmit "connectProducerTransport")
      = envAllOk.connectFires :=
  c1_connect_emission_count envAllOk
    { sessionId := "abc", routerRtpCapabilities := 5 } 7 rfl rfl rfl rfl rfl

/-- An environment identical to `envAllOk` except that the engine fires the
transport's `connect` event twice. -/
def envTwoFires : Env := { envAllOk with connectFires := 2 }

/-- C1 (counterexample to the claim as stated): when the engine fires the
`connect` event twice for the transport, the client emits
`connectProducerTransport` twice — a second emission for the same transport
does occur, contradicting the claimed exactly-once behaviour. -/
theorem c1_counterexample_double_emission :
    ((async_task envTwoFires).2.2).countP (isEmit "connectProducerTransport")
      = 2 := by decide

lemma nsuf_replicate_skip (p q : Ev → Bool) (k : Nat) (a : Ev)
    (l : List Ev) (hpa : p a = false) (hqa : q a = false) :
    noSecondUntilFirst p q (List.replicate k a ++ l)
      = noSecondUntilFirst p q l := by
  apply noSecondUntilFirst_append_skip
  intro e he
  rw [List.mem_replicate] at he
  rw [he.2]
  exact ⟨hpa, hqa⟩

/-- The pipeline stage at which each kind of observable event can occur:
connection establishment (0), capability exchange (1), transport creation
(2), DTLS forwarding and producer registration (3), recording start (4),
recording stop (5), artifact persistence (6). -/
def stageOf : Ev → Nat
  | .connect _ => 0
  | .call "getRouterRtpCapabilities" _ _ => 1
  | .call "createTransport" _ _ => 2
  | .emit "connectProducerTransport" _ => 3
  | .call "transport-produce" _ _ => 3
  | .emit "start-record" _ => 4
  | .call "stop-record" _ _ => 5
  | .fileWrite _ _ => 6
  | _ => 0

/-- C6: a failure in any coordinator step short-circuits all remaining
steps.  Whichever step fails first — the socket connect, the
`getRouterRtpCapabilities` call, the device load, the `createTransport`
call, the `transport-produce` call, or the `stop-record` call — the task
terminates with that step's error, the failing call is never retried
(it appears exactly once in the trace), and no operation of any later
stage occurs; in particular, after a capabilities-call failure no
`createTransport` call is ever made and no transport is ever created for
the session. -/
theorem c6_any_step_failure_short_circuits (env : Env) :
    (env.connectOk = false →
      (async_task env).1 = .err .connectError ∧
      (async_task env).2.2 = [] ∧
      (async_task env).2.1 = initUserState) ∧
    (∀ ce : CallErr, env.connectOk = true → env.connectionSuccess = true →
      env.capsResponse = .error ce →
      (async_task env).1 = .err (.callError "getRouterRtpCapabilities") ∧
      ((async_task env).2.2).countP (isCall "getRouterRtpCapabilities")
          = 1 ∧
      (∀ e ∈ (async_task env).2.2, isCall "createTransport" e = false) ∧
      (∀ e ∈ (async_task env).2.2, stageOf e ≤ 1) ∧
      (async_task env).2.1.producer_transport = none) ∧
    (∀ m : CapsResp, env.connectOk = true → env.connectionSuccess = true →
      env.capsResponse = .ok m → env.deviceLoadOk = false →
      (async_task env).1 = .err .unsupportedMedia ∧
      (∀ e ∈ (async_task env).2.2, stageOf e ≤ 1) ∧
      (async_task env).2.1.producer_transport = none) ∧
    (∀ (m : CapsResp) (ce : CallErr), env.connectOk = true →
      env.connectionSuccess = true → env.capsResponse = .ok m →
      env.deviceLoadOk = true → env.transportResponse = .error ce →
      (async_task env).1 = .err (.callError "createTransport") ∧
      ((async_task env).2.2).countP (isCall "createTransport") = 1 ∧
      (∀ e ∈ (async_task env).2.2, stageOf e ≤ 2) ∧
      (async_task env).2.1.producer_transport = none ∧
      (async_task env).2.1.local_producer = none) ∧
    (∀ (m : CapsResp) (tp : Nat) (ce : CallErr), env.connectOk = true →
      env.connectionSuccess = true → env.capsResponse = .ok m →
      env.deviceLoadOk = true → env.transportResponse = .ok tp →
      env.produceResponse = .error ce →
      (async_task env).1 = .err (.callError "transport-produce") ∧
      ((async_task env).2.2).countP (isCall "transport-produce") = 1 ∧
      (∀ e ∈ (async_task env).2.2, stageOf e ≤ 3) ∧
      (async_task env).2.1.local_producer = none) ∧
    (∀ (m : CapsResp) (tp : Nat) (pid : String) (ce : CallErr),
      env.connectOk = true → env.connectionSuccess = true →
      env.capsResponse = .ok m → env.deviceLoadOk = true →
      env.transportResponse = .ok tp → env.produceResponse = .ok pid →
      env.trackEnds = true → env.stopResponse = .error ce →
      (async_task env).1 = .err (.callError "stop-record") ∧
      ((async_task env).2.2).countP (isCall "stop-record") = 1 ∧
      (∀ e ∈ (async_task env).2.2, stageOf e ≤ 5)) := by
  refine ⟨?_, ?_, ?_, ?_, ?_, ?_⟩
  · intro h1
    simp [async_task, h1]
  · intro ce h1 h2 h3
    simp [async_task, h1, task_session, h2, get_router_rtp_capabilities,
      h3, isCall, stageOf, List.countP_cons, initUserState]
  · intro m h1 h2 h3 h4
    simp [async_task, h1, task_session, h2, get_router_rtp_capabilities,
      h3, task_device, create_device, h4, stageOf, initUserState]
  · intro m ce h1 h2 h3 h4 h5
    simp [async_task, h1, task_session, h2, get_router_rtp_capabilities,
      h3, task_device, create_device, h4, task_transport,
      create_send_transport, h5, isCall, stageOf, List.countP_cons,
      initUserState]
  · intro m tp ce h1 h2 h3 h4 h5 hp
    refine ⟨?_, ?_, ?_, ?_⟩
    · simp [async_task, h1, task_session, h2, get_router_rtp_capabilities,
        h3, task_device, create_device, h4, task_transport,
        create_send_transport, h5, task_produce, connect_send_transport,
        transport_produce, on_produce, hp]
    · simp [async_task, h1, task_session, h2, get_router_rtp_capabilities,
        h3, task_device, create_device, h4, task_transport,
        create_send_transport, h5, task_produce, connect_send_transport,
        transport_produce, on_produce, hp, connect_event_dispatch,
        on_connect, List.countP_append, List.countP_cons,
        countP_replicate_eq, isCall]
    · have hcount : ((async_task env).2.2).countP
          (fun e => !(decide (stageOf e ≤ 3))) = 0 := by
        simp [async_task, h1, task_session, h2,
          get_router_rtp_capabilities, h3, task_device, create_device, h4,
          task_transport, create_send_transport, h5, task_produce,
          connect_send_transport, transport_produce, on_produce, hp,
          connect_event_dispatch, on_connect, List.countP_append,
          List.countP_cons, countP_replicate_eq, stageOf]
      intro e he
      have h0 := List.countP_eq_zero.mp hcount e he
      simpa using h0
    · simp [async_task, h1, task_session, h2, get_router_rtp_capabilities,
        h3, task_device, create_device, h4, task_transport,
        create_send_transport, h5, task_produce, connect_send_transport,
        transport_produce, on_produce, hp, initUserState]
  · intro m tp pid ce h1 h2 h3 h4 h5 hp ht hs
    refine ⟨?_, ?_, ?_⟩
    · simp [async_task, h1, task_session, h2, get_router_rtp_capabilities,
        h3, task_device, create_device, h4, task_transport,
        create_send_transport, h5, task_produce, connect_send_transport,
        transport_produce, on_produce, hp, task_record, ht, start_record,
        stop_record, hs]
    · simp [async_task, h1, task_session, h2, get_router_rtp_capabilities,
        h3, task_device, create_device, h4, task_transport,
        create_send_transport, h5, task_produce, connect_send_transport,
        transport_produce, on_produce, hp, connect_event_dispatch,
        on_connect, task_record, ht, start_record, stop_record, hs,
        List.countP_append, List.countP_cons, countP_replicate_eq, isCall]
    · have hcount : ((async_task env).2.2).countP
          (fun e => !(decide (stageOf e ≤ 5))) = 0 := by
        simp [async_task, h1, task_session, h2,
          get_router_rtp_capabilities, h3, task_device, create_device, h4,
          task_transport, create_send_transport, h5, task_produce,
          connect_send_transport, transport_produce, on_produce, hp,
          connect_event_dispatch, on_connect, task_record, ht,
          start_record, stop_record, hs, List.countP_append,
          List.countP_cons, countP_replicate_eq, stageOf]
      intro e he
      have h0 := List.countP_eq_zero.mp hcount e he
      simpa using h0

/-- An environment in which the `getRouterRtpCapabilities` call times
out. -/
def envCapsFail : Env := { envAllOk with capsResponse := .error .timeout }

/-- An environment in which the `stop-record` call times out. -/
def envStopFail : Env := { envAllOk with stopResponse := .error .timeout }

/-- C6 (witness): with a timed-out capabilities call the task surfaces
that call's error, issues the call exactly once, makes no `createTransport`
call and creates no transport; with a timed-out `stop-record` call the
task surfaces that call's error and performs no file write (every event
stays at stage five or below). -/
theorem c6_any_step_failure_short_circuits_witness :
    ((async_task envCapsFail).1
        = .err (.callError "getRouterRtpCapabilities") ∧
      ((async_task envCapsFail).2.2).countP
          (isCall "getRouterRtpCapabilities") = 1 ∧
      (∀ e ∈ (async_task envCapsFail).2.2,
          isCall "createTransport" e = false) ∧
      (async_task envCapsFail).2.1.producer_transport = none) ∧
    ((async_task envStopFail).1 = .err (.callError "stop-record") ∧
      ∀ e ∈ (async_task envStopFail).2.2, stageOf e ≤ 5) := by
  have hcaps := (c6_any_step_failure_short_circuits envCapsFail).2.1
    CallErr.timeout rfl rfl rfl
  have hstop :=
    (c6_any_step_failure_short_circuits envStopFail).2.2.2.2.2
    { sessionId := "abc", routerRtpCapabilities := 5 } 7 "producer-1"
    CallErr.timeout rfl rfl rfl rfl rfl rfl rfl rfl
  exact ⟨⟨hcaps.1, hcaps.2.1, hcaps.2.2.1, hcaps.2.2.2.2⟩,
    hstop.1, hstop.2.2⟩

/-- C5: provided the engine fires the transport's `connect` event at least
once during `produce` (as the mediasoup engine contract guarantees), the
`start-record` message is emitted only after the DTLS-connect payload has
been forwarded (`connectProducerTransport` emitted) and after the
`transport-produce` call has resolved successfully, i.e. at least one
producer exists; `start-record` never occurs earlier in the trace. -/
theorem c5_start_record_after_connect_and_producer (env : Env)
    (hf : 1 ≤ env.connectFires) :
    noSecondUntilFirst (isEmit "connectProducerTransport")
      (isEmit "start-record") (async_task env).2.2 = true ∧
    noSecondUntilFirst (isCallOk "transport-produce")
      (isEmit "start-record") (async_task env).2.2 = true := by
  obtain ⟨k, hk⟩ : ∃ k, env.connectFires = k + 1 :=
    ⟨env.connectFires - 1, by omega⟩
  cases hco : env.connectOk with
  | false => constructor <;> simp [async_task, hco, noSecondUntilFirst]
  | true =>
  cases hcs : env.connectionSuccess with
  | false =>
    constructor <;>
      simp [async_task, task_session, hco, hcs, noSecondUntilFirst,
        isEmit, isCallOk]
  | true =>
  cases hcaps : env.capsResponse with
  | error e =>
    constructor <;>
      simp [async_task, task_session, get_router_rtp_capabilities, hco,
        hcs, hcaps, noSecondUntilFirst, isEmit, isCallOk]
  | ok m =>
  cases hd : env.deviceLoadOk with
  | false =>
    constructor <;>
      simp [async_task, task_session, get_router_rtp_capabilities,
        task_device, create_device, hco, hcs, hcaps, hd,
        noSecondUntilFirst, isEmit, isCallOk]
  | true =>
  cases htr : env.transportResponse with
  | error e =>
    constructor <;>
      simp [async_task, task_session, get_router_rtp_capabilities,
        task_device, create_device, task_transport, create_send_transport,
        hco, hcs, hcaps, hd, htr, noSecondUntilFirst, isEmit, isCallOk]
  | ok tp =>
  cases hp : env.produceResponse with
  | error e =>
    constructor <;>
      simp [async_task, task_session, get_router_rtp_capabilities,
        task_device, create_device, task_transport, create_send_transport,
        task_produce, connect_send_transport, transport_produce,
        on_produce, connect_event_dispatch, on_connect, hco, hcs, hcaps,
        hd, htr, hp, hk, List.replicate_succ, nsuf_replicate_skip,
        noSecondUntilFirst, isEmit, isCallOk]
  | ok pid =>
    constructor <;>
      simp [async_task, task_session, get_router_rtp_capabilities,
        task_device, create_device, task_transport, create_send_transport,
        task_produce, connect_send_transport, transport_produce,
        on_produce, connect_event_dispatch, on_connect, hco, hcs, hcaps,
        hd, htr, hp, hk, List.replicate_succ, nsuf_replicate_skip,
        noSecondUntilFirst, isEmit, isCallOk]

/-- C5 (witness): in the fully successful environment the ordering holds
concretely. -/
theorem c5_start_record_witness :
    noSecondUntilFirst (isEmit "connectProducerTransport")
      (isEmit "start-record") (async_task envAllOk).2.2 = true ∧
    noSecondUntilFirst (isCallOk "transport-produce")
      (isEmit "start-record") (async_task envAllOk).2.2 = true :=
  c5_start_record_after_connect_and_producer envAllOk (by decide)

lemma filter_replicate_of_false {α : Type} {p : α → Bool} (k : Nat)
    (a : α) (h : p a = false) : (List.replicate k a).filter p = [] := by
  induction k with
  | zero => rfl
  | succ n ih => rw [List.replicate_succ, List.filter_cons]; simp [h, ih]

lemma task_record_state (env : Env) (sid : String) (s : UserState) :
    (task_record env sid s).2.1 = s := by
  cases ht : env.trackEnds with
  | false => simp [task_record, ht]
  | true =>
    cases hs : env.stopResponse with
    | error e => simp [task_record, ht, stop_record, hs]
    | ok r =>
      rcases hw : write_images r with ⟨res, trw⟩
      cases res <;> simp [task_record, ht, stop_record, hs, hw]

/-- C10: when the `stop-record` call succeeds and its response carries both
image buffers, the task succeeds and the only file writes in the trace are
the `firstImage` bytes to the first-image file followed by the `lastImage`
bytes to the last-image file — unmodified and in that order. -/
theorem c10_images_persisted_exactly (env : Env) (m : CapsResp) (tp : Nat)
    (pid : String) (r : Payload) (b1 b2 : List Nat)
    (h1 : env.connectOk = true) (h2 : env.connectionSuccess = true)
    (h3 : env.capsResponse = .ok m) (h4 : env.deviceLoadOk = true)
    (h5 : env.transportResponse = .ok tp)
    (hp : env.produceResponse = .ok pid) (ht : env.trackEnds = true)
    (hs : env.stopResponse = .ok r)
    (hf : dictLookup "firstImage" r = some (.vBytes b1))
    (hl : dictLookup "lastImage" r = some (.vBytes b2)) :
    (async_task env).1 = .ok ∧
    ((async_task env).2.2).filter isFileWrite
      = [.fileWrite "first_image" b1, .fileWrite "last_image" b2] := by
  constructor <;>
    simp [async_task, h1, task_session, h2, get_router_rtp_capabilities,
      h3, task_device, create_device, h4, task_transport,
      create_send_transport, h5, task_produce, connect_send_transport,
      transport_produce, on_produce, hp, connect_event_dispatch,
      on_connect, task_record, ht, start_record, stop_record, hs,
      write_images, hf, hl, List.filter_append, List.filter_cons,
      filter_replicate_of_false, isFileWrite]

/-- C10 (witness): in the fully successful environment the two sample
buffers are persisted exactly, first image first. -/
theorem c10_images_persisted_exactly_witness :
    (async_task envAllOk).1 = .ok ∧
    ((async_task envAllOk).2.2).filter isFileWrite
      = [.fileWrite "first_image" [10, 11],
         .fileWrite "last_image" [12, 13]] :=
  c10_images_persisted_exactly envAllOk
    { sessionId := "abc", routerRtpCapabilities := 5 } 7 "producer-1"
    sampleStopResponse [10, 11] [12, 13]
    rfl rfl rfl rfl rfl rfl rfl rfl (by decide) (by decide)

/-- C2 (amended): the client performs no validation of the `stop-record`
response: when the response carries a `firstImage` byte buffer but no
`lastImage` key, the first-image bytes are persisted first and only then
does the task fail with the key error, so a partial artifact consisting of
only the first image is written to storage (and buffer emptiness is never
checked). -/
theorem c2_missing_lastImage_partial_write (env : Env) (m : CapsResp)
    (tp : Nat) (pid : String) (r : Payload) (b1 : List Nat)
    (h1 : env.connectOk = true) (h2 : env.connectionSuccess = true)
    (h3 : env.capsResponse = .ok m) (h4 : env.deviceLoadOk = true)
    (h5 : env.transportResponse = .ok tp)
    (hp : env.produceResponse = .ok pid) (ht : env.trackEnds = true)
    (hs : env.stopResponse = .ok r)
    (hf : dictLookup "firstImage" r = some (.vBytes b1))
    (hl : dictLookup "lastImage" r = none) :
    (async_task env).1 = .err (.keyError "lastImage") ∧
    ((async_task env).2.2).filter isFileWrite
      = [.fileWrite "first_image" b1] := by
  constructor <;>
    simp [async_task, h1, task_session, h2, get_router_rtp_capabilities,
      h3, task_device, create_device, h4, task_transport,
      create_send_transport, h5, task_produce, connect_send_transport,
      transport_produce, on_produce, hp, connect_event_dispatch,
      on_connect, task_record, ht, start_record, stop_record, hs,
      write_images, hf, hl, List.filter_append, List.filter_cons,
      filter_replicate_of_false, isFileWrite]

/-- An environment whose `stop-record` response carries only `firstImage`
and no `lastImage`. -/
def envC2 : Env :=
  { envAllOk with stopResponse := .ok [("firstImage", .vBytes [1])] }

/-- C2 (counterexample to the claim as stated): with a `stop-record`
response lacking `lastImage`, the operation does fail, but something is
persisted nonetheless — the partial first-image artifact is written to
storage before the failure. -/
theorem c2_counterexample_partial_artifact :
    dictLookup "lastImage" [("firstImage", Value.vBytes [1])] = none ∧
    (async_task envC2).1 = .err (.keyError "lastImage") ∧
    ((async_task envC2).2.2).filter isFileWrite
      = [Ev.fileWrite "first_image" [1]] := by decide

/-- C2 (amended, witness): the partial-write behaviour at the concrete
environment `envC2`. -/
theorem c2_missing_lastImage_partial_write_witness :
    (async_task envC2).1 = .err (.keyError "lastImage") ∧
    ((async_task envC2).2.2).filter isFileWrite
      = [.fileWrite "first_image" [1]] :=
  c2_missing_lastImage_partial_write envC2
    { sessionId := "abc", routerRtpCapabilities := 5 } 7 "producer-1"
    [("firstImage", .vBytes [1])] [1]
    rfl rfl rfl rfl rfl rfl rfl rfl (by decide) (by decide)

/-- C3: production is atomic in the channel call: if the
`transport-produce` call fails, `produce` returns no valid producer handle
and the session is left with no local producer in the producing state; a
producer handle (carrying the server-assigned id) is returned exactly when
the server-assigned id has been received. -/
theorem c3_produce_atomicity (env : Env) (m : CapsResp) (tp : Nat)
    (h1 : env.connectOk = true) (h2 : env.connectionSuccess = true)
    (h3 : env.capsResponse = .ok m) (h4 : env.deviceLoadOk = true)
    (h5 : env.transportResponse = .ok tp) :
    (∀ ce : CallErr, env.produceResponse = .error ce →
      (connect_send_transport env m.sessionId).1
          = .error (.callError "transport-produce") ∧
      (async_task env).1 = .err (.callError "transport-produce") ∧
      (async_task env).2.1.local_producer = none) ∧
    (∀ pid : String, env.produceResponse = .ok pid →
      (connect_send_transport env m.sessionId).1 = .ok { id := pid } ∧
      (async_task env).2.1.local_producer = some { id := pid }) := by
  constructor
  · intro ce hp
    refine ⟨?_, ?_, ?_⟩ <;>
      simp [connect_send_transport, transport_produce, on_produce, hp,
        async_task, h1, task_session, h2, get_router_rtp_capabilities, h3,
        task_device, create_device, h4, task_transport,
        create_send_transport, h5, task_produce, initUserState]
  · intro pid hp
    constructor <;>
      simp [connect_send_transport, transport_produce, on_produce, hp,
        async_task, h1, task_session, h2, get_router_rtp_capabilities, h3,
        task_device, create_device, h4, task_transport,
        create_send_transport, h5, task_produce, task_record_state]

/-- An environment in which the `transport-produce` call fails with a
server-reported error. -/
def envProduceFail : Env :=
  { envAllOk with produceResponse := .error .serverError }

/-- C3 (witness): with a failed `transport-produce` call, `produce` yields
no handle, the task fails, and no local producer remains. -/
theorem c3_produce_atomicity_witness :
    (connect_send_transport envProduceFail "abc").1
        = .error (.callError "transport-produce") ∧
    (async_task envProduceFail).1
        = .err (.callError "transport-produce") ∧
    (async_task envProduceFail).2.1.local_producer = none := by
  have h := c3_produce_atomicity envProduceFail
    { sessionId := "abc", routerRtpCapabilities := 5 } 7 rfl rfl rfl rfl rfl
  exact h.1 .serverError rfl

/-- Does this event either carry no `sessionId` field or carry exactly the
given session id? -/
def sessionConsistent (sid : String) (e : Ev) : Bool :=
  match sessionField e with
  | none => true
  | some v => decide (v = .vStr sid)

lemma task_produce_state_fields (env : Env) (sid : String)
    (s : UserState) :
    (task_produce env sid s).2.1.session_id = s.session_id ∧
    (task_produce env sid s).2.1.session_id_writes
      = s.session_id_writes := by
  cases hp : env.produceResponse with
  | error e =>
    simp [task_produce, connect_send_transport, transport_produce,
      on_produce, hp]
  | ok pid =>
    simp [task_produce, connect_send_transport, transport_produce,
      on_produce, hp, task_record_state]

lemma task_transport_state_fields (env : Env) (sid : String)
    (s : UserState) :
    (task_transport env sid s).2.1.session_id = s.session_id ∧
    (task_transport env sid s).2.1.session_id_writes
      = s.session_id_writes := by
  cases htr : env.transportResponse with
  | error e => simp [task_transport, create_send_transport, htr]
  | ok tp =>
    simp [task_transport, create_send_transport, htr,
      task_produce_state_fields]

lemma task_device_state_fields (env : Env) (sid : String)
    (s : UserState) :
    (task_device env sid s).2.1.session_id = s.session_id ∧
    (task_device env sid s).2.1.session_id_writes
      = s.session_id_writes := by
  cases hd : env.deviceLoadOk with
  | false => simp [task_device, create_device, hd]
  | true =>
    simp [task_device, create_device, hd, task_transport_state_fields]

lemma forall_mem_replicate {α : Type} {p : α → Prop} {k : Nat} {a : α}
    (h : p a) : ∀ x ∈ List.replicate k a, p x := by
  intro x hx
  rw [List.mem_replicate] at hx
  rw [hx.2]
  exact h

lemma sessionConsistent_write_images (r : Payload) (sid : String) :
    ∀ e ∈ (write_images r).2, sessionConsistent sid e = true := by
  intro e he
  have hw := write_images_trace_writes r e he
  cases e <;> simp_all [isFileWrite, sessionConsistent, sessionField]

lemma countP_inconsistent_write_images (r : Payload) (sid : String) :
    ((write_images r).2).countP (fun e => !sessionConsistent sid e)
      = 0 := by
  rw [List.countP_eq_zero]
  intro e he
  simp [sessionConsistent_write_images r sid e he]

/-- C9: once the `getRouterRtpCapabilities` response arrives, the session
identifier is assigned exactly once — to the `sessionId` field of that
response — and never mutated afterwards, and every subsequent signaling
message of the session that carries a `sessionId` field carries exactly
that value. -/
theorem c9_session_id_stable (env : Env) (m : CapsResp)
    (h1 : env.connectOk = true) (h2 : env.connectionSuccess = true)
    (h3 : env.capsResponse = .ok m) :
    (async_task env).2.1.session_id = some m.sessionId ∧
    (async_task env).2.1.session_id_writes = 1 ∧
    ∀ e ∈ (async_task env).2.2, sessionConsistent m.sessionId e = true := by
  refine ⟨?_, ?_, ?_⟩
  · simp [async_task, h1, task_session, h2, get_router_rtp_capabilities,
      h3, task_device_state_fields]
  · simp [async_task, h1, task_session, h2, get_router_rtp_capabilities,
      h3, task_device_state_fields, initUserState]
  · have hcount : ((async_task env).2.2).countP
        (fun e => !sessionConsistent m.sessionId e) = 0 := by
      cases hd : env.deviceLoadOk with
      | false =>
        simp [async_task, h1, task_session, h2,
          get_router_rtp_capabilities, h3, task_device, create_device,
          hd, List.countP_cons, sessionConsistent, sessionField,
          dictLookup]
      | true =>
      cases htr : env.transportResponse with
      | error e =>
        simp [async_task, h1, task_session, h2,
          get_router_rtp_capabilities, h3, task_device, create_device,
          hd, task_transport, create_send_transport, htr,
          List.countP_cons, sessionConsistent, sessionField, dictLookup]
      | ok tp =>
      cases hp : env.produceResponse with
      | error e =>
        simp [async_task, h1, task_session, h2,
          get_router_rtp_capabilities, h3, task_device, create_device,
          hd, task_transport, create_send_transport, htr, task_produce,
          connect_send_transport, transport_produce, on_produce, hp,
          connect_event_dispatch, on_connect, List.countP_append,
          List.countP_cons, countP_replicate_eq, sessionConsistent,
          sessionField, dictLookup]
      | ok pid =>
      cases ht : env.trackEnds with
      | false =>
        simp [async_task, h1, task_session, h2,
          get_router_rtp_capabilities, h3, task_device, create_device,
          hd, task_transport, create_send_transport, htr, task_produce,
          connect_send_transport, transport_produce, on_produce, hp,
          connect_event_dispatch, on_connect, task_record, ht,
          start_record, List.countP_append, List.countP_cons,
          countP_replicate_eq, sessionConsistent, sessionField,
          dictLookup]
      | true =>
      cases hs : env.stopResponse with
      | error e =>
        simp [async_task, h1, task_session, h2,
          get_router_rtp_capabilities, h3, task_device, create_device,
          hd, task_transport, create_send_transport, htr, task_produce,
          connect_send_transport, transport_produce, on_produce, hp,
          connect_event_dispatch, on_connect, task_record, ht,
          start_record, stop_record, hs, List.countP_append,
          List.countP_cons, countP_replicate_eq, sessionConsistent,
          sessionField, dictLookup]
      | ok r =>
        rcases hw : write_images r with ⟨res, trw⟩
        cases res <;>
          · simp [async_task, h1, task_session, h2,
              get_router_rtp_capabilities, h3, task_device, create_device,
              hd, task_transport, create_send_transport, htr, task_produce,
              connect_send_transport, transport_produce, on_produce, hp,
              connect_event_dispatch, on_connect, task_record, ht,
              start_record, stop_record, hs, hw, List.countP_append,
              List.countP_cons, countP_replicate_eq, sessionConsistent,
              sessionField, dictLookup]
            intro a ha
            have hc := sessionConsistent_write_images r m.sessionId a
              (by rw [hw]; exact ha)
            simpa [sessionConsistent] using hc
    intro e he
    have h0 := List.countP_eq_zero.mp hcount e he
    simpa using h0

/-- C9 (witness): in the fully successful environment the session id is
`"abc"`, assigned once, and all messages carry it. -/
theorem c9_session_id_stable_witness :
    (async_task envAllOk).2.1.session_id = some "abc" ∧
    (async_task envAllOk).2.1.session_id_writes = 1 ∧
    ∀ e ∈ (async_task envAllOk).2.2,
      sessionConsistent "abc" e = true :=
  c9_session_id_stable envAllOk
    { sessionId := "abc", routerRtpCapabilities := 5 } rfl rfl rfl

lemma spec_table_write_images (r : Payload) :
    ∀ e ∈ (write_images r).2, spec_message_table e = true := by
  intro e he
  have hw := write_images_trace_writes r e he
  cases e <;> simp_all [isFileWrite, spec_message_table]

lemma countP_nonconformant_write_images (r : Payload) :
    ((write_images r).2).countP (fun e => !spec_message_table e) = 0 := by
  rw [List.countP_eq_zero]
  intro e he
  simp [spec_table_write_images r e he]

/-- C8: every signaling message the client sends conforms to the spec's
external-interface table — event name, call-vs-emit mode, and request
payload fields: `getRouterRtpCapabilities` as a call with empty payload,
`createTransport` as a call with `{sender: true, sessionId}`,
`transport-produce` as a call with `{kind, rtpParameters, sessionId}`,
`connectProducerTransport` as an emit with `{dtlsParameters, sessionId}`,
`start-record` as an emit with `{sessionId}`, and `stop-record` as a call
with `{sessionId}`. -/
theorem c8_messages_conform_to_table (env : Env) :
    ∀ e ∈ (async_task env).2.2, spec_message_table e = true := by
  have hcount : ((async_task env).2.2).countP
      (fun e => !spec_message_table e) = 0 := by
    cases hco : env.connectOk with
    | false => simp [async_task, hco]
    | true =>
    cases hcs : env.connectionSuccess with
    | false =>
      simp [async_task, task_session, hco, hcs, List.countP_cons,
        spec_message_table]
    | true =>
    cases hcaps : env.capsResponse with
    | error e =>
      simp [async_task, task_session, get_router_rtp_capabilities, hco,
        hcs, hcaps, List.countP_cons, spec_message_table]
    | ok m =>
    cases hd : env.deviceLoadOk with
    | false =>
      simp [async_task, task_session, get_router_rtp_capabilities,
        task_device, create_device, hco, hcs, hcaps, hd,
        List.countP_cons, spec_message_table]
    | true =>
    cases htr : env.transportResponse with
    | error e =>
      simp [async_task, task_session, get_router_rtp_capabilities,
        task_device, create_device, task_transport,
        create_send_transport, hco, hcs, hcaps, hd, htr,
        List.countP_cons, spec_message_table]
    | ok tp =>
    cases hp : env.produceResponse with
    | error e =>
      simp [async_task, task_session, get_router_rtp_capabilities,
        task_device, create_device, task_transport,
        create_send_transport, task_produce, connect_send_transport,
        transport_produce, on_produce, connect_event_dispatch,
        on_connect, hco, hcs, hcaps, hd, htr, hp, List.countP_append,
        List.countP_cons, countP_replicate_eq, spec_message_table]
    | ok pid =>
    cases ht : env.trackEnds with
    | false =>
      simp [async_task, task_session, get_router_rtp_capabilities,
        task_device, create_device, task_transport,
        create_send_transport, task_produce, connect_send_transport,
        transport_produce, on_produce, connect_event_dispatch,
        on_connect, task_record, start_record, hco, hcs, hcaps, hd, htr,
        hp, ht, List.countP_append, List.countP_cons,
        countP_replicate_eq, spec_message_table]
    | true =>
    cases hs : env.stopResponse with
    | error e =>
      simp [async_task, task_session, get_router_rtp_capabilities,
        task_device, create_device, task_transport,
        create_send_transport, task_produce, connect_send_transport,
        transport_produce, on_produce, connect_event_dispatch,
        on_connect, task_record, start_record, stop_record, hco, hcs,
        hcaps, hd, htr, hp, ht, hs, List.countP_append,
        List.countP_cons, countP_replicate_eq, spec_message_table]
    | ok r =>
      rcases hw : write_images r with ⟨res, trw⟩
      cases res <;>
        · simp [async_task, task_session, get_router_rtp_capabilities,
            task_device, create_device, task_transport,
            create_send_transport, task_produce, connect_send_transport,
            transport_produce, on_produce, connect_event_dispatch,
            on_connect, task_record, start_record, stop_record, hco, hcs,
            hcaps, hd, htr, hp, ht, hs, hw, List.countP_append,
            List.countP_cons, countP_replicate_eq, spec_message_table]
          intro a ha
          have hc := spec_table_write_images r a (by rw [hw]; exact ha)
          simpa using hc
  intro e he
  have h0 := List.countP_eq_zero.mp hcount e he
  simpa using h0

/-- C8 (witness): the `start-record` emission of the fully successful
session conforms to the table. -/
theorem c8_messages_conform_to_table_witness :
    spec_message_table
      (Ev.emit "start-record" [("sessionId", Value.vStr "abc")]) = true :=
  c8_messages_conform_to_table envAllOk
    (Ev.emit "start-record" [("sessionId", Value.vStr "abc")]) (by decide)

/-- The suspension points of `async_task` as phases of a small-step
machine: each phase is one block between `await` boundaries of the source
(`produce`, and the `stop-record` call followed by its synchronous file
writes, are each taken as one step).  Terminal phases record the
outcome. -/
inductive Phase where
  | connectPh
  | waitGreeting
  | fetchCaps
  | loadDevice
  | makeTransport
  | producePh
  | recordPh
  | waitTrackEnd
  | stopPh
  | finished
  | failed : Err → Phase
  | stuck
  deriving DecidableEq, Repr

/-- The complete state of one session task: its phase, its own `User`
fields, and the trace of channel operations it has performed.  Nothing in
it is shared with any other session. -/
structure TState where
  phase : Phase
  us : UserState
  trace : List Ev
  deriving Repr

/-- A freshly created `User` about to run `async_task`. -/
def initTState : TState :=
  { phase := .connectPh, us := initUserState, trace := [] }

/-- One step of a session task: executes the block of `async_task` at the
current suspension point, reading only the task's own environment and
state.  (`self.session_id` is read from the task's own `UserState`; it is
always set by the time the later phases run.)  Terminal phases are
absorbing. -/
def step (env : Env) (t : TState) : TState :=
  match t.phase with
  | .connectPh =>
    if env.connectOk = false then { t with phase := .failed .connectError }
    else
      { t with phase := .waitGreeting
               trace := t.trace ++ [.connect "http://localhost:4000"] }
  | .waitGreeting =>
    if env.connectionSuccess = false then { t with phase := .stuck }
    else { t with phase := .fetchCaps }
  | .fetchCaps =>
    match get_router_rtp_capabilities env with
    | (.error e, tr) =>
      { t with phase := .failed e, trace := t.trace ++ tr }
    | (.ok m, tr) =>
      { t with phase := .loadDevice
               us := { t.us with
                       session_id := some m.sessionId
                       session_id_writes := t.us.session_id_writes + 1
                       router_rtp_capabilities :=
                         some m.routerRtpCapabilities }
               trace := t.trace ++ tr }
  | .loadDevice =>
    match create_device env with
    | (.error e, trd) =>
      { t with phase := .failed e, trace := t.trace ++ trd }
    | (.ok _, trd) =>
      { t with phase := .makeTransport
               us := { t.us with device_loaded := true }
               trace := t.trace ++ trd }
  | .makeTransport =>
    match create_send_transport env (t.us.session_id.getD "") with
    | (.error e, trt) =>
      { t with phase := .failed e, trace := t.trace ++ trt }
    | (.ok params, trt) =>
      { t with phase := .producePh
               us := { t.us with producer_transport := some params }
               trace := t.trace ++ trt }
  | .producePh =>
    match connect_send_transport env (t.us.session_id.getD "") with
    | (.error e, trp) =>
      { t with phase := .failed e, trace := t.trace ++ trp }
    | (.ok prod, trp) =>
      { t with phase := .recordPh
               us := { t.us with local_producer := some prod }
               trace := t.trace ++ trp }
  | .recordPh =>
    { t with phase := .waitTrackEnd
             trace := t.trace ++ start_record (t.us.session_id.getD "") }
  | .waitTrackEnd =>
    if env.trackEnds = false then { t with phase := .stuck }
    else { t with phase := .stopPh }
  | .stopPh =>
    match stop_record env (t.us.session_id.getD "") with
    | (.error e, trs) =>
      { t with phase := .failed e, trace := t.trace ++ trs }
    | (.ok r, trs) =>
      match write_images r with
      | (.error e, trw) =>
        { t with phase := .failed e, trace := t.trace ++ trs ++ trw }
      | (.ok _, trw) =>
        { t with phase := .finished, trace := t.trace ++ trs ++ trw }
  | .finished => t
  | .failed _ => t
  | .stuck => t

/-- Run one session task for `n` of its own steps starting from `t`. -/
def runFrom (env : Env) (t : TState) : Nat → TState
  | 0 => t
  | n + 1 => runFrom env (step env t) n

/-- Run one session task alone for `n` steps from a fresh `User`. -/
def run (env : Env) (n : Nat) : TState :=
  runFrom env initTState n

/-- One step of the two-session system of `main`
(`asyncio.gather(task(...), task(...))`): the scheduler picks one of the
two tasks (`true` = first) and advances it by one step; the other task's
state is untouched. -/
def stepPair (env1 env2 : Env) (c : Bool) (p : TState × TState) :
    TState × TState :=
  if c then (step env1 p.1, p.2) else (p.1, step env2 p.2)

/-- Run the two gathered session tasks of `main` under an arbitrary
interleaving schedule, both starting as fresh `User`s. -/
def runPair (env1 env2 : Env) (sched : List Bool) : TState × TState :=
  sched.foldl (fun p c => stepPair env1 env2 c p) (initTState, initTState)

lemma runPair_foldl_fst (env1 env2 : Env) :
    ∀ (sched : List Bool) (p : TState × TState),
      (sched.foldl (fun q c => stepPair env1 env2 c q) p).1
        = runFrom env1 p.1 (sched.count true) := by
  intro sched
  induction sched with
  | nil => intro p; rfl
  | cons c s ih =>
    intro p
    rw [List.foldl_cons, ih]
    cases c with
    | false => simp [stepPair, List.count_cons]
    | true => simp [stepPair, List.count_cons, runFrom]

lemma runPair_foldl_snd (env1 env2 : Env) :
    ∀ (sched : List Bool) (p : TState × TState),
      (sched.foldl (fun q c => stepPair env1 env2 c q) p).2
        = runFrom env2 p.2 (sched.count false) := by
  intro sched
  induction sched with
  | nil => intro p; rfl
  | cons c s ih =>
    intro p
    rw [List.foldl_cons, ih]
    cases c with
    | false => simp [stepPair, List.count_cons, runFrom]
    | true => simp [stepPair, List.count_cons]

/-- C7: session isolation.  For any two sessions run concurrently in one
process under an arbitrary interleaving schedule, each session's complete
state — phase, session identifier, capability set, transport, producers,
and event trace — equals the state of that session running alone for its
own number of steps.  In particular neither session observes or mutates
the other's state, and the outcome of one session is independent of the
other session's environment and of the interleaving. -/
theorem c7_session_isolation (env1 env2 : Env) (sched : List Bool) :
    (runPair env1 env2 sched).1 = run env1 (sched.count true) ∧
    (runPair env1 env2 sched).2 = run env2 (sched.count false) :=
  ⟨runPair_foldl_fst env1 env2 sched (initTState, initTState),
   runPair_foldl_snd env1 env2 sched (initTState, initTState)⟩

/-- Outcome recorded by a terminal phase (a non-terminal phase counts as
still blocked). -/
def phaseOutcome : Phase → Outcome
  | .finished => .ok
  | .failed e => .err e
  | _ => .hung

/-- Fidelity of the small-step machine: a solo run of nine steps (enough to
traverse every phase; terminal phases are absorbing) reaches exactly the
outcome, the final `User` state, and the trace of the big-step
`async_task`. -/
theorem smallstep_agrees_with_async_task (env : Env) :
    phaseOutcome (run env 9).phase = (async_task env).1 ∧
    (run env 9).us = (async_task env).2.1 ∧
    (run env 9).trace = (async_task env).2.2 := by
  have h9 : run env 9 = step env (step env (step env (step env (step env
      (step env (step env (step env (step env initTState)))))))) := rfl
  rw [h9]
  cases hco : env.connectOk with
  | false => simp [step, initTState, initUserState, phaseOutcome,
      async_task, hco]
  | true =>
  cases hcs : env.connectionSuccess with
  | false => simp [step, initTState, initUserState, phaseOutcome,
      async_task, task_session, hco, hcs]
  | true =>
  cases hcaps : env.capsResponse with
  | error e => simp [step, initTState, initUserState, phaseOutcome,
      async_task, task_session, get_router_rtp_capabilities, hco, hcs,
      hcaps]
  | ok m =>
  cases hd : env.deviceLoadOk with
  | false => simp [step, initTState, initUserState, phaseOutcome,
      async_task, task_session, get_router_rtp_capabilities, task_device,
      create_device, hco, hcs, hcaps, hd]
  | true =>
  cases htr : env.transportResponse with
  | error e => simp [step, initTState, initUserState, phaseOutcome,
      async_task, task_session, get_router_rtp_capabilities, task_device,
      create_device, task_transport, create_send_transport, hco, hcs,
      hcaps, hd, htr, Option.getD]
  | ok tp =>
  cases hp : env.produceResponse with
  | error e => simp [step, initTState, initUserState, phaseOutcome,
      async_task, task_session, get_router_rtp_capabilities, task_device,
      create_device, task_transport, create_send_transport, task_produce,
      connect_send_transport, transport_produce, on_produce,
      connect_event_dispatch, on_connect, hco, hcs, hcaps, hd, htr, hp,
      Option.getD]
  | ok pid =>
  cases ht : env.trackEnds with
  | false => simp [step, initTState, initUserState, phaseOutcome,
      async_task, task_session, get_router_rtp_capabilities, task_device,
      create_device, task_transport, create_send_transport, task_produce,
      connect_send_transport, transport_produce, on_produce,
      connect_event_dispatch, on_connect, task_record, start_record, hco,
      hcs, hcaps, hd, htr, hp, ht, Option.getD]
  | true =>
  cases hs : env.stopResponse with
  | error e => simp [step, initTState, initUserState, phaseOutcome,
      async_task, task_session, get_router_rtp_capabilities, task_device,
      create_device, task_transport, create_send_transport, task_produce,
      connect_send_transport, transport_produce, on_produce,
      connect_event_dispatch, on_connect, task_record, start_record,
      stop_record, hco, hcs, hcaps, hd, htr, hp, ht, hs, Option.getD]
  | ok r =>
    rcases hw : write_images r with ⟨res, trw⟩
    cases res <;>
      simp [step, initTState, initUserState, phaseOutcome, async_task,
        task_session, get_router_rtp_capabilities, task_device,
        create_device, task_transport, create_send_transport,
        task_produce, connect_send_transport, transport_produce,
        on_produce, connect_event_dispatch, on_connect, task_record,
        start_record, stop_record, hco, hcs, hcaps, hd, htr, hp, ht, hs,
        hw, Option.getD]

example : (async_task envAllOk).1 = .ok := by decide

example :
    ((async_task envAllOk).2.2).countP (isEmit "connectProducerTransport")
      = 1 := by decide

example :
    noSecondUntilFirst (isCallOk "getRouterRtpCapabilities")
      (isCall "createTransport") (async_task envAllOk).2.2 = true := by decide

end MediasoupClient
